import Mathlib

/-!
Verification of the ESP32-CAM capture relay (Flask application).

Shallow embedding of the core of the repository:
  * `Registry` / `updateEsp32Info` / `clearEndpoint` — the shared
    `esp32_service_info` dictionary and the mutations performed on it by
    `app/mdns_discover.py` (`ESP32Listener._update_esp32_info`,
    `ESP32Listener.remove_service`) and by `app/routes.py` (the 502 branch of
    `handle_trigger_capture`).
  * `fetch_image_from_esp32` — `app/camera_comms.py`.  Network behaviour is
    abstracted into a `TransportResult` value (which exception `requests.get`
    raised, or which response it produced) and an `elapsed` wall-clock
    measurement; the function is a pure classifier of that data, exactly
    mirroring the `try`/`except` structure of the source.
  * `handle_trigger_capture` — the `/trigger-esp32-capture` handler of
    `app/routes.py`, as a pure state transformer over `AppState`
    (registry + `rpi_image_id_counter`).  File-system writes are abstracted by
    a `writeOk` flag in the per-trigger environment; calls to
    `log_manager.log_capture_event` are collected in the `records` field of the
    output.
-/

namespace CvSystem

/-- The shared `esp32_service_info` dictionary of `app/__init__.py`:
`{"url": None, "ip": None, "port": None, "last_seen": 0}`.  Python `None` is
`Option.none`; `last_seen` is a number from the start (initially `0`, set to
`time.time()` by updates), modelled as a `Nat`. -/
structure Registry where
  ip : Option String
  port : Option Nat
  url : Option String
  last_seen : Nat
  deriving Repr, DecidableEq

/-- Initial registry state from `app/__init__.py`. -/
def initRegistry : Registry := ⟨none, none, none, 0⟩

/-- The capture URL computed in `ESP32Listener._update_esp32_info`:
`f"http://{ip_address}:{port}/capture"`. -/
def captureUrlOf (ip : String) (port : Nat) : String :=
  "http://" ++ ip ++ ":" ++ toString port ++ "/capture"

/-- `ESP32Listener._update_esp32_info` (app/mdns_discover.py lines 20-30):
under the lock, sets `ip`, `port`, `url` (derived) and `last_seen` (the current
clock, passed in as `now`). -/
def updateEsp32Info (_r : Registry) (ip : String) (port : Nat) (now : Nat) :
    Registry :=
  { ip := some ip, port := some port, url := some (captureUrlOf ip port),
    last_seen := now }

/-- The clearing assignment performed both by `ESP32Listener.remove_service`
(app/mdns_discover.py lines 49-51) and by the 502 branch of
`handle_trigger_capture` (app/routes.py lines 68-71): sets `url`, `ip`, `port`
to `None`.  Note that `last_seen` is NOT touched by either source location. -/
def clearEndpoint (r : Registry) : Registry :=
  { r with ip := none, port := none, url := none }

/-- A registry mutation, for reasoning about arbitrary interleavings of the
two operations the source performs on `esp32_service_info`. -/
inductive RegOp where
  | set (ip : String) (port : Nat) (now : Nat)
  | clear
  deriving Repr, DecidableEq

def applyRegOp (r : Registry) : RegOp → Registry
  | .set ip port now => updateEsp32Info r ip port now
  | .clear => clearEndpoint r

/-- Run a sequence of registry operations from the initial state.  Because
every operation in the source runs under `esp32_service_info_lock`, any
concurrent execution is equivalent to some sequential order, which this fold
ranges over. -/
def runRegOps (ops : List RegOp) : Registry :=
  ops.foldl applyRegOp initRegistry

/-- Python's `str.lower()` (character-wise lowering, as in the source's ASCII
hostnames and content types). -/
def strToLower (s : String) : String := ⟨s.data.map Char.toLower⟩

/-- `needle` starts `hay` (helper for the substring test). -/
def charsLeadWith : List Char → List Char → Bool
  | [], _ => true
  | _ :: _, [] => false
  | a :: as, b :: bs => a == b && charsLeadWith as bs

/-- `needle` occurs contiguously in `hay` (helper for the substring test). -/
def charsOccurIn (needle : List Char) : List Char → Bool
  | [] => needle.isEmpty
  | c :: rest => charsLeadWith needle (c :: rest) || charsOccurIn needle rest

/-- Python's substring test `needle in hay`. -/
def strContains (hay needle : String) : Bool :=
  charsOccurIn needle.data hay.data

/-- Python truthiness of an optional string (`if not current_capture_url`):
falsy when `None` or the empty string. -/
def optStrFalsy : Option String → Bool
  | none => true
  | some s => s.isEmpty

/-- Outcome of the `requests.get(capture_url, timeout=20)` call in
`app/camera_comms.py`: which exception was raised, or the response received
(status code, raw body bytes, decoded body text, optional `Content-Type`
header).  `raise_for_status` turning a 4xx/5xx response into an `HTTPError`
carrying that same response is part of `fetch_image_from_esp32` below, not of
the transport. -/
inductive TransportResult where
  | timeout
  | connectionError
  | otherException (msg : String)
  | httpResponse (status : Nat) (content : List Nat) (text : String)
      (contentTypeHeader : Option String)
  deriving Repr, DecidableEq

/-- The tuple `(image_data, content_type, error_message, status_code,
fetch_duration_ms)` returned by `fetch_image_from_esp32`. -/
structure FetchOutcome where
  image_data : Option (List Nat)
  content_type : Option String
  error_msg : Option String
  status_code : Nat
  duration_ms : Nat
  deriving Repr, DecidableEq

/-- `fetch_image_from_esp32` (app/camera_comms.py).  `elapsed` is the
wall-clock duration measured around the network call (`time.monotonic()`
difference), the same quantity whether the call returned or raised.
`response.raise_for_status()` raises exactly when `400 <= status < 600`. -/
def fetch_image_from_esp32 (capture_url : String) (tr : TransportResult)
    (elapsed : Nat) : FetchOutcome :=
  if capture_url.isEmpty then
    ⟨none, none, some "ESP32 capture URL is not known.", 503, 0⟩
  else
    match tr with
    | .timeout =>
        ⟨none, none, some "Timeout: ESP32 camera did not respond.", 504,
          elapsed⟩
    | .connectionError =>
        ⟨none, none,
          some "Connection Error: Could not connect to ESP32 camera.", 502,
          elapsed⟩
    | .otherException m =>
        ⟨none, none, some ("An internal server error occurred: " ++ m), 500,
          elapsed⟩
    | .httpResponse status content text hdr =>
        if 400 ≤ status ∧ status < 600 then
          ⟨none, none,
            some ("ESP32 Error: " ++ toString status ++ " - " ++ text),
            status, elapsed⟩
        else
          let content_type := strToLower (hdr.getD "")
          if content.isEmpty then
            ⟨none, some content_type, some "ESP32 returned empty image data",
              status, elapsed⟩
          else
            ⟨some content, some content_type, none, status, elapsed⟩

/-- One row handed to `log_manager.log_capture_event` (the timestamp argument
is carried in the trigger environment and not needed by any claim, so only the
five data fields are recorded). -/
structure CaptureRecord where
  rpi_image_id : Nat
  saved_filename : String
  image_size_bytes : Nat
  fetch_duration_ms : Nat
  esp32_url_used : String
  deriving Repr, DecidableEq

/-- The JSON body and HTTP status produced by `jsonify(...), code` in
`handle_trigger_capture`.  `status` is the `"status"` field of the body
(`"success"` or `"error"`), `filename` its optional `"filename"` field. -/
structure HandlerResult where
  status : String
  message : String
  filename : Option String
  http_status : Nat
  deriving Repr, DecidableEq

/-- Process-wide mutable state read and written by `handle_trigger_capture`:
the endpoint registry and `rpi_image_id_counter` (app/__init__.py, initial
value 0). -/
structure AppState where
  registry : Registry
  counter : Nat
  deriving Repr, DecidableEq

def initAppState : AppState := ⟨initRegistry, 0⟩

/-- Per-trigger environment: everything outside the program state that one
execution of `handle_trigger_capture` observes.  `transport`/`elapsed` feed
`fetch_image_from_esp32`; `ts` is `rpi_filename_ts_str`, the
`'%Y%m%d_%H%M%S_%f'`-formatted `datetime.now()`; `writeOk` tells whether the
`open`/`write` of the image file succeeds, and `writeErr` is the exception text
`{e}` when it does not. -/
structure TriggerEnv where
  transport : TransportResult
  elapsed : Nat
  ts : String
  writeOk : Bool
  writeErr : String
  deriving Repr, DecidableEq

/-- Observable effects of one execution of `handle_trigger_capture`:
the new program state, the HTTP result, the `log_capture_event` calls made (in
order), the filenames successfully written to the upload folder, whether
`fetch_image_from_esp32` was invoked, and the value of the local
`current_rpi_id_val` (0 unless the counter branch ran, as in the source). -/
structure TriggerOutput where
  state : AppState
  result : HandlerResult
  records : List CaptureRecord
  filesWritten : List String
  fetchInvoked : Bool
  current_rpi_id_val : Nat
  deriving Repr, DecidableEq

/-- `handle_trigger_capture` (app/routes.py lines 47-148) as a pure state
transformer.  Branch for branch:
  * empty/unknown URL → 503 "not discovered", no fetch, no record;
  * fetch error → clear the registry iff `status_code == 502`, log a record
    with id 0 and size 0, return the error message with the outcome's status;
  * fetch success → increment `rpi_image_id_counter`, then branch on
    `'image/jpeg' in content_type`:
      - JPEG: write `image_<ts>_<id>.jpg`; on write success return 200 and log;
        on write failure log with the allocated id and return 500;
      - other: write `image_<ts>_<id>_unknown_type.bin`; on write success log
        and return 415; on write failure return 500 WITHOUT logging (the source
        has no `log_capture_event` call in that `except` block). -/
def handle_trigger_capture (st : AppState) (env : TriggerEnv) : TriggerOutput :=
  let urlOpt := st.registry.url
  if optStrFalsy urlOpt then
    { state := st,
      result := ⟨"error",
        "ESP32 service not discovered. Please wait or check ESP32.", none,
        503⟩,
      records := [], filesWritten := [], fetchInvoked := false,
      current_rpi_id_val := 0 }
  else
    let url := urlOpt.getD ""
    let o := fetch_image_from_esp32 url env.transport env.elapsed
    match o.error_msg with
    | some emsg =>
        let reg := if o.status_code = 502 then clearEndpoint st.registry
                   else st.registry
        { state := { st with registry := reg },
          result := ⟨"error", emsg, none, o.status_code⟩,
          records := [⟨0, "N/A_ERROR", 0, o.duration_ms, url⟩],
          filesWritten := [], fetchInvoked := true, current_rpi_id_val := 0 }
    | none =>
        let newId := st.counter + 1
        let st' := { st with counter := newId }
        let data := o.image_data.getD []
        let content_type := o.content_type.getD ""
        if strContains content_type "image/jpeg" then
          let fn := "image_" ++ env.ts ++ "_" ++ toString newId ++ ".jpg"
          if env.writeOk then
            { state := st',
              result := ⟨"success", "OV2640 JPEG captured and saved.", some fn,
                200⟩,
              records := [⟨newId, fn, data.length, o.duration_ms, url⟩],
              filesWritten := [fn], fetchInvoked := true,
              current_rpi_id_val := newId }
          else
            { state := st',
              result := ⟨"error",
                "Failed to save image on RPi: " ++ env.writeErr, none, 500⟩,
              records :=
                [⟨newId, "N/A_SAVE_ERROR", data.length, o.duration_ms, url⟩],
              filesWritten := [], fetchInvoked := true,
              current_rpi_id_val := newId }
        else
          let fn := "image_" ++ env.ts ++ "_" ++ toString newId ++
            "_unknown_type.bin"
          if env.writeOk then
            { state := st',
              result := ⟨"error",
                "Unexpected content type '" ++ content_type ++
                  "' from ESP32. Raw data saved as .bin.", none, 415⟩,
              records := [⟨newId, fn, data.length, o.duration_ms, url⟩],
              filesWritten := [fn], fetchInvoked := true,
              current_rpi_id_val := newId }
          else
            { state := st',
              result := ⟨"error",
                "Failed to save raw image data: " ++ env.writeErr, none, 500⟩,
              records := [], filesWritten := [], fetchInvoked := true,
              current_rpi_id_val := newId }

/-- The `ESP32Listener` of app/mdns_discover.py; the constructor lowers the
target hostname base (`target_hostname_base.lower()`). -/
structure ESP32Listener where
  target_hostname_base : String
  deriving Repr, DecidableEq

def mkESP32Listener (target : String) : ESP32Listener := ⟨strToLower target⟩

/-- `ESP32Listener.remove_service` (app/mdns_discover.py lines 32-51), its
effect on the registry: if `self.target_hostname_base in name.lower()`, set
`url`/`ip`/`port` to `None`; otherwise do nothing.  (The
`get_service_info` probe inside the lock is dead code — its result is never
used.) -/
def remove_service (l : ESP32Listener) (r : Registry) (name : String) :
    Registry :=
  if strContains (strToLower name) l.target_hostname_base then clearEndpoint r
  else r

/-- The error taxonomy of spec §7, restricted to the kinds a fetch outcome can
carry.  The source has no such datatype — errors are tuples — so this is the
spec-side vocabulary used to state claims about error kinds. -/
inductive ErrorKind where
  | NotDiscovered
  | Timeout
  | ConnectionFailed
  | RemoteHttpError (status : Nat)
  | EmptyBody
  | InternalError
  deriving Repr, DecidableEq

/-- Classification of a fetch attempt into the spec §7 taxonomy, following the
branch structure of `fetch_image_from_esp32`: which `except` clause (or
body-emptiness check) produced the error, if any. -/
def errorKindOf (capture_url : String) (tr : TransportResult) :
    Option ErrorKind :=
  if capture_url.isEmpty then some .NotDiscovered
  else
    match tr with
    | .timeout => some .Timeout
    | .connectionError => some .ConnectionFailed
    | .otherException _ => some .InternalError
    | .httpResponse status content _ _ =>
        if 400 ≤ status ∧ status < 600 then some (.RemoteHttpError status)
        else if content.isEmpty then some .EmptyBody
        else none

/-- Sequentialised trace of trigger requests: run `handle_trigger_capture`
over a list of per-trigger environments, collecting the capture ids assigned
(the nonzero `current_rpi_id_val` values, in execution order).  Concurrent
triggers serialise at `rpi_image_id_counter_lock`, so id assignment follows
some sequential order, which this recursion ranges over. -/
def assignedIds : AppState → List TriggerEnv → List Nat
  | _, [] => []
  | st, env :: rest =>
      let out := handle_trigger_capture st env
      if out.current_rpi_id_val = 0 then assignedIds out.state rest
      else out.current_rpi_id_val :: assignedIds out.state rest

/-- The "unknown" endpoint state: the three endpoint fields that both clearing
sites reset. -/
def endpointEmpty (r : Registry) : Prop :=
  r.ip = none ∧ r.port = none ∧ r.url = none

/-- The "known" endpoint state with the derived-URL consistency of spec §3. -/
def endpointConsistent (r : Registry) : Prop :=
  ∃ ip port, r.ip = some ip ∧ r.port = some port ∧
    r.url = some (captureUrlOf ip port)

/-- Modelled from the spec (claim C2's reading of §3/§8): ALL FOUR fields of
the registry empty, where `last_seen`'s empty value is its initial `0`. -/
def fourFieldsEmpty (r : Registry) : Prop :=
  r.ip = none ∧ r.port = none ∧ r.url = none ∧ r.last_seen = 0

/-- Modelled from the spec (claim C2's reading of §3/§8): ALL FOUR fields set
and mutually consistent. -/
def fourFieldsSetConsistent (r : Registry) : Prop :=
  ∃ ip port, r.ip = some ip ∧ r.port = some port ∧
    r.url = some (captureUrlOf ip port) ∧ r.last_seen ≠ 0

/-! ## Concrete fixtures shared by witnesses and counterexamples -/

/-- A registry in the discovered state, as produced by
`updateEsp32Info` for device `10.0.0.5:80` at clock 1000. -/
def regSet0 : Registry :=
  ⟨some "10.0.0.5", some 80, some (captureUrlOf "10.0.0.5" 80), 1000⟩

/-- Program state with a discovered endpoint and counter 0. -/
def stSet0 : AppState := ⟨regSet0, 0⟩

/-! ## Theorems -/

/-- C3: with a non-empty URL, a transport timeout yields the timeout error
with status 504, a connection failure yields the connection error with status
502, and any other transport exception yields the generic internal error with
status 500; each of these failure outcomes reports the elapsed time measured
up to the failure as its duration.  The error kinds are named via the spec
taxonomy `errorKindOf`. -/
theorem fetch_transport_error_classification (url : String)
    (tr : TransportResult) (elapsed : Nat) (hurl : url.isEmpty = false) :
    (tr = .timeout →
      errorKindOf url tr = some .Timeout ∧
      fetch_image_from_esp32 url tr elapsed =
        ⟨none, none, some "Timeout: ESP32 camera did not respond.", 504,
          elapsed⟩) ∧
    (tr = .connectionError →
      errorKindOf url tr = some .ConnectionFailed ∧
      fetch_image_from_esp32 url tr elapsed =
        ⟨none, none,
          some "Connection Error: Could not connect to ESP32 camera.", 502,
          elapsed⟩) ∧
    (∀ m, tr = .otherException m →
      errorKindOf url tr = some .InternalError ∧
      fetch_image_from_esp32 url tr elapsed =
        ⟨none, none, some ("An internal server error occurred: " ++ m), 500,
          elapsed⟩) := by
  refine ⟨?_, ?_, ?_⟩
  · rintro rfl
    simp [errorKindOf, fetch_image_from_esp32, hurl]
  · rintro rfl
    simp [errorKindOf, fetch_image_from_esp32, hurl]
  · rintro m rfl
    simp [errorKindOf, fetch_image_from_esp32, hurl]

/-- Witness for C3 at a concrete input: a timeout against a real URL. -/
theorem fetch_transport_error_classification_witness :
    errorKindOf "http://10.0.0.5:80/capture" .timeout = some .Timeout ∧
    fetch_image_from_esp32 "http://10.0.0.5:80/capture" .timeout 3 =
      ⟨none, none, some "Timeout: ESP32 camera did not respond.", 504, 3⟩ :=
  (fetch_transport_error_classification "http://10.0.0.5:80/capture" .timeout
    3 (by decide)).1 rfl

/-- C4: every fetch outcome carries exactly one of (bytes, error); an empty
URL yields the not-discovered error with status 503 and zero duration, and the
outcome does not depend on the transport (no network call is made); a received
4xx/5xx response yields the remote-HTTP error carrying that status with a
message containing the status and the body text; a 2xx response with empty
body yields the empty-body error carrying the response's own status; a 2xx
response with non-empty body yields success with the bytes and the lower-cased
content-type header (empty string when the header is absent) and no error. -/
theorem fetch_outcome_taxonomy (url : String) (tr : TransportResult)
    (elapsed : Nat) :
    ((fetch_image_from_esp32 url tr elapsed).image_data.isSome =
      !(fetch_image_from_esp32 url tr elapsed).error_msg.isSome) ∧
    (url.isEmpty = true →
      fetch_image_from_esp32 url tr elapsed =
        ⟨none, none, some "ESP32 capture URL is not known.", 503, 0⟩ ∧
      errorKindOf url tr = some .NotDiscovered ∧
      ∀ tr' e', fetch_image_from_esp32 url tr' e' =
        fetch_image_from_esp32 url tr elapsed) ∧
    (url.isEmpty = false →
      ∀ status content text hdr, tr = .httpResponse status content text hdr →
        (400 ≤ status → status < 600 →
          errorKindOf url tr = some (.RemoteHttpError status) ∧
          fetch_image_from_esp32 url tr elapsed =
            ⟨none, none,
              some ("ESP32 Error: " ++ toString status ++ " - " ++ text),
              status, elapsed⟩ ∧
          (∃ a b, "ESP32 Error: " ++ toString status ++ " - " ++ text =
            a ++ toString status ++ b) ∧
          (∃ a b, "ESP32 Error: " ++ toString status ++ " - " ++ text =
            a ++ text ++ b)) ∧
        (200 ≤ status → status < 300 → content = [] →
          errorKindOf url tr = some .EmptyBody ∧
          fetch_image_from_esp32 url tr elapsed =
            ⟨none, some (strToLower (hdr.getD "")),
              some "ESP32 returned empty image data", status, elapsed⟩) ∧
        (200 ≤ status → status < 300 → content ≠ [] →
          errorKindOf url tr = none ∧
          fetch_image_from_esp32 url tr elapsed =
            ⟨some content, some (strToLower (hdr.getD "")), none, status,
              elapsed⟩)) := by
  refine ⟨?_, ?_, ?_⟩
  · unfold fetch_image_from_esp32
    split
    · rfl
    · cases tr with
      | timeout => rfl
      | connectionError => rfl
      | otherException m => rfl
      | httpResponse status content text hdr =>
          simp only []
          split
          · rfl
          · split <;> rfl
  · intro h
    refine ⟨by simp [fetch_image_from_esp32, h], by simp [errorKindOf, h],
      fun tr' e' => by simp [fetch_image_from_esp32, h]⟩
  · rintro h status content text hdr rfl
    refine ⟨?_, ?_, ?_⟩
    · intro h4 h6
      refine ⟨by simp [errorKindOf, h]; omega,
        by simp [fetch_image_from_esp32, h]; intro hc; omega,
        ⟨"ESP32 Error: ", " - " ++ text, by rw [String.append_assoc]⟩,
        ⟨"ESP32 Error: " ++ toString status ++ " - ", "",
          by simp [String.append_assoc, String.append_empty]⟩⟩
    · rintro h2 h3 rfl
      constructor
      · simp [errorKindOf, h]
        omega
      · simp [fetch_image_from_esp32, h]
        omega
    · intro h2 h3 hc
      constructor
      · simp [errorKindOf, h, hc]
        omega
      · simp [fetch_image_from_esp32, h, hc]
        omega

/-- Witness for C4 at concrete inputs: a 404 response with body text
"not found" against a non-empty URL. -/
theorem fetch_outcome_taxonomy_witness :
    errorKindOf "http://10.0.0.5:80/capture"
      (.httpResponse 404 [1] "not found" none) = some (.RemoteHttpError 404) ∧
    fetch_image_from_esp32 "http://10.0.0.5:80/capture"
      (.httpResponse 404 [1] "not found" none) 9 =
      ⟨none, none, some ("ESP32 Error: " ++ toString 404 ++ " - not found"),
        404, 9⟩ :=
  ⟨((fetch_outcome_taxonomy "http://10.0.0.5:80/capture"
      (.httpResponse 404 [1] "not found" none) 9).2.2 (by decide)
      404 [1] "not found" none rfl).1 (by decide) (by decide) |>.1,
   ((fetch_outcome_taxonomy "http://10.0.0.5:80/capture"
      (.httpResponse 404 [1] "not found" none) 9).2.2 (by decide)
      404 [1] "not found" none rfl).1 (by decide) (by decide) |>.2.1⟩

/-- C5: a trigger while the registry snapshot has an empty capture URL returns
the fixed 503 "not discovered" error, whose message contains "not discovered";
the fetcher is not invoked, the state (in particular the capture counter) is
unchanged, and no record or file is produced. -/
theorem trigger_not_discovered (st : AppState) (env : TriggerEnv)
    (h : optStrFalsy st.registry.url = true) :
    handle_trigger_capture st env =
      ⟨st, ⟨"error",
        "ESP32 service not discovered. Please wait or check ESP32.", none,
        503⟩, [], [], false, 0⟩ ∧
    strContains "ESP32 service not discovered. Please wait or check ESP32."
      "not discovered" = true := by
  refine ⟨?_, by decide⟩
  unfold handle_trigger_capture
  simp [h]

/-- Witness for C5: trigger from the initial (undiscovered) state. -/
theorem trigger_not_discovered_witness :
    handle_trigger_capture initAppState ⟨.timeout, 0, "ts", true, "e"⟩ =
      ⟨initAppState, ⟨"error",
        "ESP32 service not discovered. Please wait or check ESP32.", none,
        503⟩, [], [], false, 0⟩ ∧
    strContains "ESP32 service not discovered. Please wait or check ESP32."
      "not discovered" = true :=
  trigger_not_discovered initAppState ⟨.timeout, 0, "ts", true, "e"⟩
    (by decide)

/-- C10: a fetch answered by a 2xx response with an empty body produces the
outcome message "ESP32 returned empty image data" carrying the device's own
2xx status, and the trigger handler relays exactly that message and that 2xx
status in an error JSON body, leaving the registry and the capture counter
(the whole state) unchanged. -/
theorem trigger_empty_body_two_xx (st : AppState) (s elapsed : Nat)
    (text ts werr : String) (hdr : Option String) (wok : Bool)
    (hurl : optStrFalsy st.registry.url = false)
    (h2 : 200 ≤ s) (h3 : s < 300) :
    (fetch_image_from_esp32 (st.registry.url.getD "")
        (.httpResponse s [] text hdr) elapsed).error_msg =
      some "ESP32 returned empty image data" ∧
    (fetch_image_from_esp32 (st.registry.url.getD "")
        (.httpResponse s [] text hdr) elapsed).status_code = s ∧
    errorKindOf (st.registry.url.getD "") (.httpResponse s [] text hdr) =
      some .EmptyBody ∧
    (handle_trigger_capture st
        ⟨.httpResponse s [] text hdr, elapsed, ts, wok, werr⟩).result =
      ⟨"error", "ESP32 returned empty image data", none, s⟩ ∧
    (handle_trigger_capture st
        ⟨.httpResponse s [] text hdr, elapsed, ts, wok, werr⟩).state = st := by
  have hu : ((st.registry.url).getD "").isEmpty = false := by
    cases hr : st.registry.url with
    | none => rw [hr] at hurl; simp [optStrFalsy] at hurl
    | some u => rw [hr] at hurl; simpa [optStrFalsy, Option.getD] using hurl
  have h46 : ¬ (400 ≤ s ∧ s < 600) := by omega
  have h502 : s ≠ 502 := by omega
  have hfetch : fetch_image_from_esp32 (st.registry.url.getD "")
      (.httpResponse s [] text hdr) elapsed =
      ⟨none, some (strToLower (hdr.getD "")),
        some "ESP32 returned empty image data", s, elapsed⟩ := by
    simp [fetch_image_from_esp32, hu, h46]
  refine ⟨by rw [hfetch], by rw [hfetch], ?_, ?_, ?_⟩
  · simp [errorKindOf, hu, h46]
  · unfold handle_trigger_capture
    simp only [hurl, Bool.false_eq_true, if_false, hfetch]
  · unfold handle_trigger_capture
    simp only [hurl, Bool.false_eq_true, if_false, hfetch]
    simp [h502]

/-- Witness for C10: device status 200, empty body — the handler returns HTTP
200 whose JSON payload has status "error". -/
theorem trigger_empty_body_two_xx_witness :
    (handle_trigger_capture stSet0
        ⟨.httpResponse 200 [] "" (some "image/jpeg"), 4, "ts", true,
          "e"⟩).result =
      ⟨"error", "ESP32 returned empty image data", none, 200⟩ ∧
    (handle_trigger_capture stSet0
        ⟨.httpResponse 200 [] "" (some "image/jpeg"), 4, "ts", true,
          "e"⟩).state = stSet0 :=
  ⟨(trigger_empty_body_two_xx stSet0 200 4 "" "ts" "e" (some "image/jpeg")
      true (by decide) (by decide) (by decide)).2.2.2.1,
   (trigger_empty_body_two_xx stSet0 200 4 "" "ts" "e" (some "image/jpeg")
      true (by decide) (by decide) (by decide)).2.2.2.2⟩

/-- C1 counterexample: a fetch answered by a remote 502 response — error kind
`RemoteHttpError 502`, not `ConnectionFailed` — nevertheless clears the
registry (the `ip` field was set before the trigger and is `none` after),
because the handler branches on `status_code == 502`, not on the error kind. -/
theorem registry_clear_not_only_connfail_cex :
    errorKindOf (stSet0.registry.url.getD "")
      (.httpResponse 502 [1] "Bad Gateway" none) =
      some (.RemoteHttpError 502) ∧
    stSet0.registry.ip = some "10.0.0.5" ∧
    (handle_trigger_capture stSet0
        ⟨.httpResponse 502 [1] "Bad Gateway" none, 12, "ts", true,
          "e"⟩).state.registry.ip = none := by
  refine ⟨by decide, by decide, by decide⟩

/-- C1 as amended: for a trigger whose fetch returns an error outcome, the
registry is cleared exactly when the outcome's `status_code` is 502 — which
happens exactly when the error kind is `ConnectionFailed` or
`RemoteHttpError` carrying remote status 502; every other error outcome leaves
the registry exactly as it was. -/
theorem registry_clear_on_502 (st : AppState) (env : TriggerEnv) (e : String)
    (hurl : optStrFalsy st.registry.url = false)
    (herr : (fetch_image_from_esp32 (st.registry.url.getD "") env.transport
      env.elapsed).error_msg = some e) :
    ((handle_trigger_capture st env).state.registry =
      if (fetch_image_from_esp32 (st.registry.url.getD "") env.transport
          env.elapsed).status_code = 502 then clearEndpoint st.registry
      else st.registry) ∧
    ((fetch_image_from_esp32 (st.registry.url.getD "") env.transport
        env.elapsed).status_code = 502 ↔
      (errorKindOf (st.registry.url.getD "") env.transport =
          some .ConnectionFailed ∨
        errorKindOf (st.registry.url.getD "") env.transport =
          some (.RemoteHttpError 502))) := by
  have hu : ((st.registry.url).getD "").isEmpty = false := by
    cases hr : st.registry.url with
    | none => rw [hr] at hurl; simp [optStrFalsy] at hurl
    | some u => rw [hr] at hurl; simpa [optStrFalsy, Option.getD] using hurl
  obtain ⟨tr, elapsed, ts, wok, werr⟩ := env
  simp only at herr ⊢
  constructor
  · unfold handle_trigger_capture
    simp only [hurl, Bool.false_eq_true, if_false, herr]
  · unfold fetch_image_from_esp32 at herr
    unfold fetch_image_from_esp32 errorKindOf
    simp only [hu, Bool.false_eq_true, if_false] at herr ⊢
    cases tr with
    | timeout => simp
    | connectionError => simp
    | otherException m => simp
    | httpResponse status content text hdr =>
        dsimp only at herr ⊢
        by_cases h46 : 400 ≤ status ∧ status < 600
        · rw [if_pos h46, if_pos h46]
          constructor
          · rintro rfl
            simp
          · rintro (h | h)
            · simp at h
            · simp at h
              simp [h]
        · rw [if_neg h46, if_neg h46]
          by_cases hc : content.isEmpty
          · simp only [hc, if_true]
            constructor
            · intro h5
              exact absurd (by omega : 400 ≤ status ∧ status < 600) h46
            · rintro (h | h) <;> simp at h
          · rw [if_neg h46] at herr
            simp only [hc, Bool.false_eq_true, if_false] at herr
            simp at herr

/-- Witness for C1's amended theorem: a timeout outcome (status 504) leaves
the discovered registry untouched. -/
theorem registry_clear_on_502_witness :
    (handle_trigger_capture stSet0
        ⟨.timeout, 7, "ts", true, "e"⟩).state.registry =
      (if (fetch_image_from_esp32 (stSet0.registry.url.getD "")
          TransportResult.timeout 7).status_code = 502 then
        clearEndpoint stSet0.registry
      else stSet0.registry) :=
  (registry_clear_on_502 stSet0 ⟨.timeout, 7, "ts", true, "e"⟩
    "Timeout: ESP32 camera did not respond." (by decide) (by decide)).1

/-- Each registry operation re-establishes the three-field endpoint
invariant, whatever state it runs from: `set` writes a consistent triple,
`clear` writes the empty triple. -/
theorem endpointInv_applyRegOp (r : Registry) (op : RegOp) :
    endpointEmpty (applyRegOp r op) ∨ endpointConsistent (applyRegOp r op) := by
  cases op with
  | set ip port now => exact Or.inr ⟨ip, port, rfl, rfl, rfl⟩
  | clear => exact Or.inl ⟨rfl, rfl, rfl⟩

/-- The endpoint invariant holds after folding any operation sequence from
any starting state satisfying it. -/
theorem endpointInv_foldl (ops : List RegOp) (r : Registry)
    (h : endpointEmpty r ∨ endpointConsistent r) :
    endpointEmpty (ops.foldl applyRegOp r) ∨
      endpointConsistent (ops.foldl applyRegOp r) := by
  induction ops generalizing r with
  | nil => exact h
  | cons op rest ih => exact ih (applyRegOp r op) (endpointInv_applyRegOp r op)

/-- C2 counterexample: after `set` (at clock 1000) followed by `clear`, the
three endpoint fields are empty but `last_seen` still holds 1000 — neither
clearing site resets `last_seen`, so the four fields mix empty and non-empty,
and the reachable state is neither all-empty nor all-set-and-consistent. -/
theorem registry_four_fields_cex :
    (runRegOps [.set "10.0.0.5" 80 1000, .clear]).ip = none ∧
    (runRegOps [.set "10.0.0.5" 80 1000, .clear]).last_seen = 1000 ∧
    ¬ (fourFieldsEmpty (runRegOps [.set "10.0.0.5" 80 1000, .clear]) ∨
       fourFieldsSetConsistent (runRegOps [.set "10.0.0.5" 80 1000,
         .clear])) := by
  refine ⟨rfl, rfl, ?_⟩
  rintro (⟨_, _, _, h0⟩ | ⟨ip, port, hip, _⟩)
  · exact absurd h0 (by decide)
  · exact Option.noConfusion hip

/-- C2 as amended: after any sequence of `set`/`clear` operations from the
initial state, the three endpoint fields (`ip`, `port`, `url`) are either all
empty or all set with `url = "http://" ++ ip ++ ":" ++ port ++ "/capture"`;
`last_seen` is excluded because no clearing site in the source resets it. -/
theorem registry_endpoint_invariant (ops : List RegOp) :
    endpointEmpty (runRegOps ops) ∨ endpointConsistent (runRegOps ops) :=
  endpointInv_foldl ops initRegistry (Or.inl ⟨rfl, rfl, rfl⟩)

/-- C9: a Removed event whose service name contains the configured target
hostname label (both sides lower-cased, as in the source) empties the endpoint
fields of the registry — whatever state it was in, in particular when it was
set — while a non-matching name leaves the registry exactly unchanged. -/
theorem remove_service_clears_on_match (target : String) (r : Registry)
    (name : String) :
    (strContains (strToLower name) (strToLower target) = true →
      endpointEmpty (remove_service (mkESP32Listener target) r name)) ∧
    (strContains (strToLower name) (strToLower target) = false →
      remove_service (mkESP32Listener target) r name = r) := by
  constructor
  · intro h
    simp [remove_service, mkESP32Listener, h, clearEndpoint, endpointEmpty]
  · intro h
    simp [remove_service, mkESP32Listener, h]

/-- Witness for C9: the target label appears (with different casing) in a
removed service's name while the registry is set; the endpoint becomes
empty. -/
theorem remove_service_clears_on_match_witness :
    endpointEmpty (remove_service (mkESP32Listener "my-esp32-cam") regSet0
      "My-ESP32-CAM._http._tcp.local.") :=
  (remove_service_clears_on_match "my-esp32-cam" regSet0
    "My-ESP32-CAM._http._tcp.local.").1 (by decide)

/-- C7: on a successful fetch with a writable upload folder, the handler
derives the filename from the trigger's timestamp string and the freshly
assigned id `counter + 1`: a content type containing "image/jpeg" gives a 200
success with filename `image_<ts>_<id>.jpg`; any other content type still
writes the bytes to `image_<ts>_<id>_unknown_type.bin` (same timestamp and
id) but returns a 415 error. -/
theorem trigger_success_filename (st : AppState) (env : TriggerEnv)
    (hurl : optStrFalsy st.registry.url = false)
    (hok : (fetch_image_from_esp32 (st.registry.url.getD "") env.transport
      env.elapsed).error_msg = none)
    (hw : env.writeOk = true) :
    (handle_trigger_capture st env).current_rpi_id_val = st.counter + 1 ∧
    (strContains ((fetch_image_from_esp32 (st.registry.url.getD "")
        env.transport env.elapsed).content_type.getD "") "image/jpeg" =
        true →
      (handle_trigger_capture st env).result =
        ⟨"success", "OV2640 JPEG captured and saved.",
          some ("image_" ++ env.ts ++ "_" ++ toString (st.counter + 1) ++
            ".jpg"), 200⟩ ∧
      (handle_trigger_capture st env).filesWritten =
        ["image_" ++ env.ts ++ "_" ++ toString (st.counter + 1) ++ ".jpg"]) ∧
    (strContains ((fetch_image_from_esp32 (st.registry.url.getD "")
        env.transport env.elapsed).content_type.getD "") "image/jpeg" =
        false →
      (handle_trigger_capture st env).result =
        ⟨"error", "Unexpected content type '" ++
          ((fetch_image_from_esp32 (st.registry.url.getD "") env.transport
            env.elapsed).content_type.getD "") ++
          "' from ESP32. Raw data saved as .bin.", none, 415⟩ ∧
      (handle_trigger_capture st env).filesWritten =
        ["image_" ++ env.ts ++ "_" ++ toString (st.counter + 1) ++
          "_unknown_type.bin"]) := by
  unfold handle_trigger_capture
  simp only [hurl, Bool.false_eq_true, if_false, hok, hw]
  refine ⟨?_, ?_, ?_⟩
  · split <;> simp
  · intro h
    rw [if_pos h]
    exact ⟨rfl, rfl⟩
  · intro h
    rw [if_neg (by simp [h])]
    exact ⟨rfl, rfl⟩

/-- Witness for C7: a JPEG fetch from the discovered state yields
`image_ts0_1.jpg` and a 200 success. -/
theorem trigger_success_filename_witness :
    (handle_trigger_capture stSet0
        ⟨.httpResponse 200 [1, 2, 3] "" (some "image/jpeg"), 5, "ts0", true,
          "e"⟩).result =
      ⟨"success", "OV2640 JPEG captured and saved.",
        some ("image_" ++ "ts0" ++ "_" ++ toString (0 + 1) ++ ".jpg"),
        200⟩ :=
  ((trigger_success_filename stSet0
      ⟨.httpResponse 200 [1, 2, 3] "" (some "image/jpeg"), 5, "ts0", true,
        "e"⟩ (by decide) (by decide) rfl).2.1 (by decide)).1

/-- Step behaviour of the counter: one trigger either assigns no id
(`current_rpi_id_val = 0`) and leaves the counter unchanged, or assigns
`counter + 1` and advances the counter to it. -/
theorem handle_counter_cases (st : AppState) (env : TriggerEnv) :
    ((handle_trigger_capture st env).current_rpi_id_val = 0 ∧
      (handle_trigger_capture st env).state.counter = st.counter) ∨
    ((handle_trigger_capture st env).current_rpi_id_val = st.counter + 1 ∧
      (handle_trigger_capture st env).state.counter = st.counter + 1) := by
  by_cases hurl : optStrFalsy st.registry.url = true
  · exact Or.inl (by constructor <;> simp [handle_trigger_capture, hurl])
  · cases herr : (fetch_image_from_esp32 (st.registry.url.getD "")
        env.transport env.elapsed).error_msg with
    | some e =>
        exact Or.inl
          (by constructor <;> simp [handle_trigger_capture, hurl, herr])
    | none =>
        refine Or.inr (by constructor <;>
          simp [handle_trigger_capture, hurl, herr,
            apply_ite TriggerOutput.current_rpi_id_val,
            apply_ite TriggerOutput.state, apply_ite AppState.counter])

/-- The counter advances exactly when the fetch was actually executed and
returned a non-error outcome. -/
theorem handle_counter_increment (st : AppState) (env : TriggerEnv) :
    (handle_trigger_capture st env).state.counter =
      if (handle_trigger_capture st env).fetchInvoked = true ∧
          (fetch_image_from_esp32 (st.registry.url.getD "") env.transport
            env.elapsed).error_msg = none then
        st.counter + 1
      else st.counter := by
  by_cases hurl : optStrFalsy st.registry.url = true
  · simp [handle_trigger_capture, hurl]
  · cases herr : (fetch_image_from_esp32 (st.registry.url.getD "")
        env.transport env.elapsed).error_msg with
    | some e => simp [handle_trigger_capture, hurl, herr]
    | none =>
        simp [handle_trigger_capture, hurl, herr,
          apply_ite TriggerOutput.fetchInvoked,
          apply_ite TriggerOutput.state, apply_ite AppState.counter]

/-- The ids assigned along a trigger trace are consecutive starting at one
past the initial counter value. -/
theorem assignedIds_range (st : AppState) (envs : List TriggerEnv) :
    assignedIds st envs =
      List.range' (st.counter + 1) (assignedIds st envs).length := by
  induction envs generalizing st with
  | nil => simp [assignedIds]
  | cons env rest ih =>
      rcases handle_counter_cases st env with ⟨h0, hc⟩ | ⟨h0, hc⟩
      · have he : assignedIds st (env :: rest) =
            assignedIds (handle_trigger_capture st env).state rest := by
          simp [assignedIds, h0]
        rw [he, ih, hc, List.length_range']
      · have he : assignedIds st (env :: rest) =
            (st.counter + 1) ::
              assignedIds (handle_trigger_capture st env).state rest := by
          simp [assignedIds, h0]
        rw [he, List.length_cons, List.range'_succ]
        congr 1
        rw [ih, hc, List.length_range']

/-- C6: the capture counter starts at 0, advances exactly once per trigger
whose fetch was executed and returned a non-error outcome, and along any
trigger trace from a state where it reads `k` the assigned ids are exactly the
consecutive block `k+1, k+2, ...` (one per such trigger), with no duplicates
and no gaps. -/
theorem capture_id_allocation :
    initAppState.counter = 0 ∧
    (∀ (st : AppState) (env : TriggerEnv),
      (handle_trigger_capture st env).state.counter =
        if (handle_trigger_capture st env).fetchInvoked = true ∧
            (fetch_image_from_esp32 (st.registry.url.getD "") env.transport
              env.elapsed).error_msg = none then
          st.counter + 1
        else st.counter) ∧
    (∀ (st : AppState) (envs : List TriggerEnv),
      assignedIds st envs =
        List.range' (st.counter + 1) (assignedIds st envs).length) :=
  ⟨rfl, handle_counter_increment, assignedIds_range⟩

/-- C8 counterexample: a trigger whose fetch succeeds with content type
`text/plain` but whose file write fails takes the wrong-content-type
write-failure branch, which returns status 500 without calling
`log_capture_event`: the fetch was executed, yet no record is emitted. -/
theorem capture_record_missing_cex :
    (handle_trigger_capture stSet0
        ⟨.httpResponse 200 [1, 2, 3] "" (some "text/plain"), 12, "ts", false,
          "disk full"⟩).fetchInvoked = true ∧
    (handle_trigger_capture stSet0
        ⟨.httpResponse 200 [1, 2, 3] "" (some "text/plain"), 12, "ts", false,
          "disk full"⟩).result.http_status = 500 ∧
    (handle_trigger_capture stSet0
        ⟨.httpResponse 200 [1, 2, 3] "" (some "text/plain"), 12, "ts", false,
          "disk full"⟩).records = [] := by
  refine ⟨by decide, by decide, by decide⟩

/-- C8 as amended: after an executed fetch, a CaptureRecord is emitted on the
fetch-error branch (with id 0 and size 0), on both successful-write branches,
and on the JPEG write-failure branch (status 500, allocated id retained) — but
NOT on the wrong-content-type write-failure branch, which returns status 500
with no record. -/
theorem capture_record_emission (st : AppState) (env : TriggerEnv)
    (hurl : optStrFalsy st.registry.url = false) :
    (handle_trigger_capture st env).fetchInvoked = true ∧
    (∀ e, (fetch_image_from_esp32 (st.registry.url.getD "") env.transport
        env.elapsed).error_msg = some e →
      (handle_trigger_capture st env).records =
        [⟨0, "N/A_ERROR", 0,
          (fetch_image_from_esp32 (st.registry.url.getD "") env.transport
            env.elapsed).duration_ms, st.registry.url.getD ""⟩]) ∧
    ((fetch_image_from_esp32 (st.registry.url.getD "") env.transport
        env.elapsed).error_msg = none → env.writeOk = true →
      (handle_trigger_capture st env).records.length = 1) ∧
    ((fetch_image_from_esp32 (st.registry.url.getD "") env.transport
        env.elapsed).error_msg = none →
      strContains ((fetch_image_from_esp32 (st.registry.url.getD "")
        env.transport env.elapsed).content_type.getD "") "image/jpeg" =
        true →
      env.writeOk = false →
      (handle_trigger_capture st env).records =
        [⟨st.counter + 1, "N/A_SAVE_ERROR",
          ((fetch_image_from_esp32 (st.registry.url.getD "") env.transport
            env.elapsed).image_data.getD []).length,
          (fetch_image_from_esp32 (st.registry.url.getD "") env.transport
            env.elapsed).duration_ms, st.registry.url.getD ""⟩] ∧
      (handle_trigger_capture st env).result.http_status = 500) ∧
    ((fetch_image_from_esp32 (st.registry.url.getD "") env.transport
        env.elapsed).error_msg = none →
      strContains ((fetch_image_from_esp32 (st.registry.url.getD "")
        env.transport env.elapsed).content_type.getD "") "image/jpeg" =
        false →
      env.writeOk = false →
      (handle_trigger_capture st env).records = [] ∧
      (handle_trigger_capture st env).result.http_status = 500) := by
  unfold handle_trigger_capture
  simp only [hurl, Bool.false_eq_true, if_false]
  refine ⟨?_, ?_, ?_, ?_, ?_⟩
  · split
    · rfl
    · split <;> split <;> rfl
  · intro e he
    simp only [he]
  · intro he hw
    simp only [he, hw]
    split <;> simp
  · intro he hct hw
    simp only [he, hct, hw]
    exact ⟨rfl, rfl⟩
  · intro he hct hw
    simp only [he, hw]
    rw [if_neg (by simp [hct])]
    exact ⟨rfl, rfl⟩

/-- Witness for C8's amended theorem: a timeout fetch emits the sentinel
id-0 record. -/
theorem capture_record_emission_witness :
    (handle_trigger_capture stSet0 ⟨.timeout, 7, "ts", true, "e"⟩).records =
      [⟨0, "N/A_ERROR", 0,
        (fetch_image_from_esp32 (stSet0.registry.url.getD "")
          TransportResult.timeout 7).duration_ms,
        stSet0.registry.url.getD ""⟩] :=
  (capture_record_emission stSet0 ⟨.timeout, 7, "ts", true, "e"⟩
    (by decide)).2.1 "Timeout: ESP32 camera did not respond." (by decide)

end CvSystem
